import Mathlib

/-!
Formal model of the IndraNav real-time telemetry simulation and
hazard-alerting engine, shallowly embedded from
`src/backend/ws/websocketServer.js`.

Modelling conventions for JavaScript values:

* Numeric fields that can only ever hold finite doubles are modelled as
  exact rationals `ℚ` (no comparison verified here is anywhere near a
  floating-point rounding boundary).
* Fields through which the JavaScript values `undefined` / `NaN` can flow
  are modelled as `JSNum := Option ℚ`, with `none` standing for a
  non-finite value; the `js*` arithmetic operations propagate `none`
  exactly as JavaScript arithmetic propagates `NaN`.
* `Math.sin`, `Math.cos` and `Math.PI` are real-valued; they are taken as
  abstract parameters (`msin`, `mcos`, `mpi`).  No verified claim depends
  on their values.
* Each `Math.random()` draw is an explicit parameter, constrained to
  `[0,1)` where a claim quantifies over outcomes of the draws.
* JavaScript `Map` objects (`activeConnections`, `activeSessions`) are
  modelled as association lists `List (String × _)` with no duplicate
  keys; `Map.get` is `getEntry`, `Map.delete` is `removeKey`.
-/

namespace IndraNav

/-- A JavaScript number: `some q` is a finite value, `none` is `NaN` (or
another non-finite value such as `Infinity`). -/
abbrev JSNum := Option ℚ

/-- JavaScript `+` on numbers: `NaN` propagates. -/
def jsAdd : JSNum → JSNum → JSNum
  | some a, some b => some (a + b)
  | _, _ => none

/-- JavaScript `*` on numbers: `NaN` propagates. -/
def jsMul : JSNum → JSNum → JSNum
  | some a, some b => some (a * b)
  | _, _ => none

/-- JavaScript `/` on numbers: `NaN` propagates, and division by zero
produces a non-finite value (`Infinity`), also modelled `none`. -/
def jsDiv : JSNum → JSNum → JSNum
  | some a, some b => if b = 0 then none else some (a / b)
  | _, _ => none

/-- `Math.cos(x * Math.PI / 180)` applied to a possibly-`NaN` argument
(`Math.cos(NaN)` is `NaN`). -/
def jsCosDeg (mcos : ℚ → ℚ) (mpi : ℚ) : JSNum → JSNum
  | some v => some (mcos (v * mpi / 180))
  | none => none

/-- One tick's worth of `Math.random()` draws.  The source draws lazily
(short-circuit `&&`), so a given tick consumes only a subset of these;
a value supplied for a draw the control flow never reaches is ignored. -/
structure Draws where
  /-- line 467: trend-flip check `Math.random() < 0.1` -/
  trendFlip : ℚ
  /-- line 472: speed change magnitude `0.5 + Math.random() * 2` -/
  speedMag : ℚ
  /-- line 489: scenario check `Math.random() < 0.15` -/
  scenario : ℚ
  /-- line 491: cut-in check `Math.random() < 0.3` -/
  cutInChk : ℚ
  /-- line 493: cut-in value `10 + Math.random() * 30` -/
  cutInVal : ℚ
  /-- line 494: clear-road check `Math.random() < 0.4` -/
  clearChk : ℚ
  /-- line 496: clear-road value `80 + Math.random() * 150` -/
  clearVal : ℚ
  /-- lines 499 / 504: jitter draw `(Math.random() - 0.5) * 20` resp. `* 5` -/
  jitter : ℚ
deriving DecidableEq

/-- All of a tick's random draws lie in `[0,1)`, the range of
`Math.random()`. -/
def Draws.InRange (d : Draws) : Prop :=
  (0 ≤ d.trendFlip ∧ d.trendFlip < 1) ∧ (0 ≤ d.speedMag ∧ d.speedMag < 1) ∧
  (0 ≤ d.scenario ∧ d.scenario < 1) ∧ (0 ≤ d.cutInChk ∧ d.cutInChk < 1) ∧
  (0 ≤ d.cutInVal ∧ d.cutInVal < 1) ∧ (0 ≤ d.clearChk ∧ d.clearChk < 1) ∧
  (0 ≤ d.clearVal ∧ d.clearVal < 1) ∧ (0 ≤ d.jitter ∧ d.jitter < 1)

instance (d : Draws) : Decidable d.InRange := by
  unfold Draws.InRange; infer_instance

/-- The per-session simulation state, lines 396–406.  `intervalMs` is read
at line 477 (`state.intervalMs`) but is never assigned on this object —
the tick interval is stored on the `activeSessions` wrapper entry (lines
414–419) instead — so the property access yields `undefined`, modelled as
an `Option ℚ` field that the constructor leaves `none`. -/
structure SimulationState where
  startTime : ℚ
  currentSpeed : ℚ
  currentLat : JSNum
  currentLng : JSNum
  currentObstacleDistance : ℚ
  lastAlertTime : ℚ
  alertCooldown : ℚ
  speedTrend : ℚ
  routeProgress : JSNum
  intervalMs : Option ℚ
deriving DecidableEq

/-- The fresh simulation state allocated by `startTelemetrySimulation`
(lines 396–406).  `now` is `Date.now()`; `rTrend`, `rSpeed`, `rLat`,
`rLng`, `rDist` are the five `Math.random()` draws, in source order. -/
def initSimulationState (now rSpeed rLat rLng rDist rTrend : ℚ) : SimulationState :=
  { startTime := now
    currentSpeed := 60 + rSpeed * 40
    currentLat := some (407128/10000 + (rLat - 1/2) * (1/100))
    currentLng := some (-(740060/10000) + (rLng - 1/2) * (1/100))
    currentObstacleDistance := 50 + rDist * 200
    lastAlertTime := 0
    alertCooldown := 5000
    speedTrend := if rTrend > 1/2 then 1 else -1
    routeProgress := some 0
    intervalMs := none }

/-- `updateSimulationState` (lines 462–507), the Motion Model tick.
`msin`, `mcos`, `mpi` abstract `Math.sin`, `Math.cos`, `Math.PI`;
`d` supplies the tick's `Math.random()` draws; `now` is `Date.now()`. -/
def updateSimulationState (msin mcos : ℚ → ℚ) (mpi : ℚ) (d : Draws)
    (now : ℚ) (state : SimulationState) : SimulationState :=
  let elapsed := (now - state.startTime) / 1000
  -- 10% chance to flip the speed trend
  let speedTrend := if d.trendFlip < 1/10 then state.speedTrend * (-1) else state.speedTrend
  -- 0.5–2.5 km/h change, clamped to [20,140]
  let speedChange := speedTrend * (1/2 + d.speedMag * 2)
  let currentSpeed := max 20 (min 140 (state.currentSpeed + speedChange))
  -- km/h → m/s; `state.intervalMs` is `undefined`, so `distanceM` is `NaN`
  let speedMs := currentSpeed / (18/5)
  let distanceM := jsMul (some speedMs) (jsDiv state.intervalMs (some 1000))
  let bearing := 45 + msin (elapsed * (1/100)) * 30
  let latChange := jsDiv (jsMul distanceM (some (mcos (bearing * mpi / 180)))) (some 111320)
  let lngChange := jsDiv (jsMul distanceM (some (msin (bearing * mpi / 180))))
      (jsMul (some 111320) (jsCosDeg mcos mpi state.currentLat))
  let currentLat := jsAdd state.currentLat latChange
  let currentLng := jsAdd state.currentLng lngChange
  let routeProgress := jsAdd state.routeProgress distanceM
  let currentObstacleDistance :=
    if d.scenario < 3/20 then
      if state.currentObstacleDistance > 100 ∧ d.cutInChk < 3/10 then
        10 + d.cutInVal * 30
      else if state.currentObstacleDistance < 50 ∧ d.clearChk < 2/5 then
        80 + d.clearVal * 150
      else
        max 5 (min 300 (state.currentObstacleDistance + (d.jitter - 1/2) * 20))
    else
      max 5 (min 300 (state.currentObstacleDistance + (d.jitter - 1/2) * 5))
  { state with
      speedTrend := speedTrend
      currentSpeed := currentSpeed
      currentLat := currentLat
      currentLng := currentLng
      routeProgress := routeProgress
      currentObstacleDistance := currentObstacleDistance }

/-- Any number of consecutive Motion Model ticks: fold
`updateSimulationState` over a list of per-tick inputs (the tick's
`Date.now()` value and its random draws). -/
def advanceTicks (msin mcos : ℚ → ℚ) (mpi : ℚ) :
    List (ℚ × Draws) → SimulationState → SimulationState
  | [], st => st
  | (now, d) :: rest, st =>
      advanceTicks msin mcos mpi rest (updateSimulationState msin mcos mpi d now st)

/-- Alert kinds produced by `checkForHazards` (lines 532–561). -/
inductive AlertType
  | emergency_brake
  | collision_warning
  | speed_warning
deriving DecidableEq

/-- Alert severities produced by `checkForHazards`. -/
inductive Severity
  | medium
  | high
  | critical
deriving DecidableEq

/-- The classification produced by `checkForHazards` (the persisted alert
document's `message` text, id and trigger snapshot carry no information
beyond the inputs and are elided). -/
structure HazardAlert where
  type : AlertType
  severity : Severity
deriving DecidableEq

/-- `checkForHazards` (lines 513–609): cooldown gate, then the rule
cascade, first match wins; on a non-null classification the state's
`lastAlertTime` is set to `now`.  `speed` and `obstacleDistance` are the
fields of the telemetry sample the classifier reads. -/
def checkForHazards (speed obstacleDistance : ℚ) (state : SimulationState)
    (now : ℚ) : Option HazardAlert × SimulationState :=
  if now - state.lastAlertTime < state.alertCooldown then
    (none, state)
  else
    let speedMs := speed / (18/5)
    let stoppingDistance := speedMs * speedMs / (2 * 7)
    let result : Option HazardAlert :=
      if obstacleDistance ≤ 5 then
        some ⟨.emergency_brake, .critical⟩
      else if obstacleDistance ≤ stoppingDistance * (7/10) then
        some ⟨.collision_warning, .high⟩
      else if speed > 120 then
        some ⟨.speed_warning, .medium⟩
      else if obstacleDistance < 30 ∧ speed > 80 then
        some ⟨.collision_warning, .high⟩
      else if obstacleDistance < 20 then
        some ⟨.collision_warning, .medium⟩
      else
        none
    match result with
    | some a => (some a, { state with lastAlertTime := now })
    | none => (none, state)

/-- Feed a chronological list of `(now, speed, obstacleDistance)` samples
through `checkForHazards`, threading the per-session state; returns the
times at which alerts were emitted. -/
def alertTimes : SimulationState → List (ℚ × ℚ × ℚ) → List ℚ
  | _, [] => []
  | st, (now, sp, od) :: rest =>
      match checkForHazards sp od st now with
      | (some _, st1) => now :: alertTimes st1 rest
      | (none, st1) => alertTimes st1 rest

/-- JavaScript truthiness of a nullable string (`null`, `undefined` and
`""` are falsy). -/
def jsTruthy : Option String → Bool
  | some s => !(s = "")
  | none => false

/-- JavaScript `a || b` for a nullable string `a` with string default. -/
def jsOr (a : Option String) (b : String) : String :=
  match a with
  | some s => if s = "" then b else s
  | none => b

/-- `Map.get`: first (and, under the no-duplicate-keys invariant, only)
entry for a key of an association list. -/
def getEntry {α : Type} : List (String × α) → String → Option α
  | [], _ => none
  | p :: rest, k => if p.1 = k then some p.2 else getEntry rest k

/-- `Map.delete`: remove the entries for a key. -/
def removeKey {α : Type} (l : List (String × α)) (k : String) : List (String × α) :=
  l.filter (fun p => p.1 ≠ k)

/-- One entry of the `activeSessions` map (lines 414–419).  The Node
timer handle `telemetryInterval` is modelled by the entry's presence:
exactly one live timer per map entry. -/
structure ActiveSession where
  simulationState : SimulationState
  startTime : ℚ
  intervalMs : ℚ
deriving DecidableEq

/-- One entry of the `activeConnections` map (lines 52–58).  `sessionId`
is the connection's current subscription; `readyStateOpen` models
`socket.readyState === WebSocket.OPEN`.  The socket handle, `clientIP`
and `connectedAt` carry no behavior and are elided. -/
structure Connection where
  sessionId : Option String
  lastActivity : ℚ
  readyStateOpen : Bool
deriving DecidableEq

/-- The server's mutable registries. -/
structure ServerState where
  activeConnections : List (String × Connection)
  activeSessions : List (String × ActiveSession)
deriving DecidableEq

/-- A stored session document (the storage collaborator's `Session`
model, reduced to the fields the websocket server reads/writes). -/
structure SessionRec where
  sessionId : String
  weather : String
  roadType : String
  startTime : ℚ
  ended : Bool
deriving DecidableEq

/-- The storage collaborator: the stored session documents. -/
abbrev Database := List SessionRec

/-- `Session.findOne(\x7b sessionId \x7d)`: a query with an `undefined`
`sessionId` matches no stored document (every stored document has one). -/
def findSession (q : Option String) (db : Database) : Option SessionRec :=
  match q with
  | some s => db.find? (fun r => r.sessionId = s)
  | none => none

/-- Server → client messages, reduced to the fields the verified claims
mention (timestamps and free-text fields that carry no decision content
are elided; error payloads keep their `message` and, when present, the
`supportedTypes` list). -/
inductive ServerMsg
  | sessionStarted (sessionId : String)
  | sessionStopped (sessionId : String)
  | subscriptionConfirmed (sessionId : String)
  | subscriptionError (message : String)
  | unsubscriptionConfirmed (previousSession : Option String)
  | sessionStatus (sessionId : String) (found : Bool) (simulationActive : Bool)
  | telemetryData (sessionId : String) (speed : ℚ) (obstacleDistance : ℚ)
      (alert : Option HazardAlert)
  | globalAlert (alert : HazardAlert) (sourceSession : String)
  | pong
  | errorMsg (message : String) (supportedTypes : Option (List String))
deriving DecidableEq

/-- `sendMessage` (lines 722–730): emits the message only when the
socket is open.  A send is recorded as a `(connectionId, message)` pair. -/
def sendMessage (connectionId : String) (c : Connection) (msg : ServerMsg) :
    List (String × ServerMsg) :=
  if c.readyStateOpen then [(connectionId, msg)] else []

/-- Point update of one connection's `sessionId` field
(`connection.sessionId = ...`). -/
def setConnSession (connectionId : String) (sessionId : Option String)
    (conns : List (String × Connection)) : List (String × Connection) :=
  conns.map (fun p =>
    if p.1 = connectionId then (p.1, { p.2 with sessionId := sessionId }) else p)

/-- Point update of one connection's `lastActivity` field (lines 80–83). -/
def touchConnection (connectionId : String) (now : ℚ)
    (conns : List (String × Connection)) : List (String × Connection) :=
  conns.map (fun p =>
    if p.1 = connectionId then (p.1, { p.2 with lastActivity := now }) else p)

/-- `startTelemetrySimulation` (lines 386–420): no-op (warn only) when a
simulation for the session already exists, otherwise store a fresh
simulation state and start one tick timer.  `fresh` is the randomized
initial `SimulationState` of lines 396–406. -/
def startTelemetrySimulation (sessionId : String) (intervalMs : ℚ)
    (fresh : SimulationState) (now : ℚ)
    (activeSessions : List (String × ActiveSession)) : List (String × ActiveSession) :=
  if (getEntry activeSessions sessionId).isSome then
    activeSessions
  else
    (sessionId, { simulationState := fresh, startTime := now, intervalMs := intervalMs })
      :: activeSessions

/-- `stopTelemetrySimulation` (lines 689–696): cancel the timer and drop
the entry; no-op if not running. -/
def stopTelemetrySimulation (sessionId : String)
    (activeSessions : List (String × ActiveSession)) : List (String × ActiveSession) :=
  removeKey activeSessions sessionId

/-- `broadcastGlobalAlert` (lines 660–680): send a `global_alert` to
every open connection, subscribed or not. -/
def broadcastGlobalAlert (alert : HazardAlert) (sessionId : String)
    (activeConnections : List (String × Connection)) : List (String × ServerMsg) :=
  activeConnections.flatMap (fun p =>
    if p.2.readyStateOpen then
      sendMessage p.1 p.2 (ServerMsg.globalAlert alert sessionId)
    else [])

/-- `broadcastTelemetryData` (lines 627–655): send the tick's
`telemetry_data` message to every open connection subscribed to the
session, then — only for a critical alert — fan the alert out globally. -/
def broadcastTelemetryData (sessionId : String) (speed obstacleDistance : ℚ)
    (hazardAlert : Option HazardAlert)
    (activeConnections : List (String × Connection)) : List (String × ServerMsg) :=
  let message := ServerMsg.telemetryData sessionId speed obstacleDistance hazardAlert
  let sends := activeConnections.flatMap (fun p =>
    if p.2.sessionId = some sessionId ∧ p.2.readyStateOpen then
      sendMessage p.1 p.2 message
    else [])
  let globals :=
    match hazardAlert with
    | some a =>
        if a.severity = Severity.critical then
          broadcastGlobalAlert a sessionId activeConnections
        else []
    | none => []
  sends ++ globals

/-- `handleClientDisconnect` (lines 701–717): if the connection carried a
(truthy) session id and it was the only connection subscribed to that
session, stop the session's simulation; then drop the connection.  Both
explicit disconnects (`close`/`error` events) and the staleness sweep go
through this function. -/
def handleClientDisconnect (connectionId : String) (st : ServerState) : ServerState :=
  match getEntry st.activeConnections connectionId with
  | none => st
  | some connection =>
      let activeSessions :=
        match connection.sessionId with
        | some sid =>
            if sid = "" then st.activeSessions  -- JavaScript: empty string is falsy
            else
              let sessionConnections :=
                st.activeConnections.filter (fun p => p.2.sessionId = some sid)
              if sessionConnections.length ≤ 1 then
                stopTelemetrySimulation sid st.activeSessions
              else st.activeSessions
        | none => st.activeSessions
      { activeConnections := removeKey st.activeConnections connectionId
        activeSessions := activeSessions }

/-- The staleness sweep body (lines 746–763): every connection inactive
for longer than the threshold is terminated and removed through
`handleClientDisconnect`. -/
def sweepStale (now staleThreshold : ℚ) (st : ServerState) : ServerState :=
  let staleIds := (st.activeConnections.filter
    (fun p => staleThreshold < now - p.2.lastActivity)).map (fun p => p.1)
  staleIds.foldl (fun s cid => handleClientDisconnect cid s) st

/-- The `data` object of an inbound client message, reduced to the fields
the handlers read.  A field the client omitted is `none` (`undefined`). -/
structure MsgData where
  sessionId : Option String
  weather : Option String
  roadType : Option String
  simulationSpeed : Option ℚ
deriving DecidableEq

/-- The session id a successful `start_session` ends up acting on: the
stored session's id when `Session.findOne` finds one, otherwise
`sessionId || \x60ws_session_$\x7bDate.now()\x7d\x60`. -/
def startedSessionId (data : MsgData) (db : Database) (now : ℚ) : String :=
  match findSession data.sessionId db with
  | some s => s.sessionId
  | none => jsOr data.sessionId ("ws_session_" ++ toString now)

/-- `handleStartSession` (lines 186–236), success path (the `catch`
branch fires only on a storage fault, which the pure model excludes):
find or create the session document, set the requesting connection's
subscription to the session's id, start the telemetry simulation, and
confirm.  `fresh` is the randomized initial simulation state. -/
def handleStartSession (connectionId : String) (data : MsgData) (now : ℚ)
    (fresh : SimulationState) (st : ServerState) (db : Database) :
    ServerState × Database × List (String × ServerMsg) :=
  match getEntry st.activeConnections connectionId with
  | none => (st, db, [])
  | some connection =>
      let simulationSpeed := data.simulationSpeed.getD 1000
      let db1 :=
        match findSession data.sessionId db with
        | some _ => db
        | none =>
            db ++ [{ sessionId := startedSessionId data db now
                     weather := data.weather.getD "sunny"
                     roadType := data.roadType.getD "highway"
                     startTime := now
                     ended := false }]
      let sid := startedSessionId data db now
      let conns := setConnSession connectionId (some sid) st.activeConnections
      let sessions := startTelemetrySimulation sid simulationSpeed fresh now st.activeSessions
      ({ activeConnections := conns, activeSessions := sessions }, db1,
        sendMessage connectionId connection (ServerMsg.sessionStarted sid))

/-- `handleStopSession` (lines 241–280), success path: guarded by the
truthiness of the connection's session id; stops the simulation, ends the
session document, confirms, and clears the subscription. -/
def handleStopSession (connectionId : String) (st : ServerState) (db : Database) :
    ServerState × Database × List (String × ServerMsg) :=
  match getEntry st.activeConnections connectionId with
  | none => (st, db, [])
  | some connection =>
      if jsTruthy connection.sessionId = false then (st, db, [])
      else
        let sid := connection.sessionId.getD ""
        let sessions := stopTelemetrySimulation sid st.activeSessions
        let db1 := db.map (fun r =>
          if r.sessionId = sid ∧ ¬ r.ended then { r with ended := true } else r)
        let conns := setConnSession connectionId none st.activeConnections
        ({ activeConnections := conns, activeSessions := sessions }, db1,
          sendMessage connectionId connection (ServerMsg.sessionStopped sid))

/-- `handleSubscribeTelemetry` (lines 285–306): a falsy `sessionId`
yields `subscription_error` and changes nothing; otherwise the
connection's subscription is set and confirmed — the handler never
consults the session registry or the storage collaborator. -/
def handleSubscribeTelemetry (connectionId : String) (data : MsgData)
    (st : ServerState) : ServerState × List (String × ServerMsg) :=
  match getEntry st.activeConnections connectionId with
  | none => (st, [])
  | some connection =>
      if jsTruthy data.sessionId = false then
        (st, sendMessage connectionId connection
          (ServerMsg.subscriptionError "sessionId required for telemetry subscription"))
      else
        let sid := data.sessionId.getD ""
        ({ st with activeConnections := setConnSession connectionId (some sid) st.activeConnections },
          sendMessage connectionId connection (ServerMsg.subscriptionConfirmed sid))

/-- `handleUnsubscribeTelemetry` (lines 311–325). -/
def handleUnsubscribeTelemetry (connectionId : String) (st : ServerState) :
    ServerState × List (String × ServerMsg) :=
  match getEntry st.activeConnections connectionId with
  | none => (st, [])
  | some connection =>
      ({ st with activeConnections := setConnSession connectionId none st.activeConnections },
        sendMessage connectionId connection
          (ServerMsg.unsubscriptionConfirmed connection.sessionId))

/-- `handleSessionStatusRequest` (lines 330–376), success path. -/
def handleSessionStatusRequest (connectionId : String) (data : MsgData)
    (st : ServerState) (db : Database) : List (String × ServerMsg) :=
  match getEntry st.activeConnections connectionId with
  | none => []
  | some connection =>
      let sid := data.sessionId.getD ""
      match findSession data.sessionId db with
      | none => sendMessage connectionId connection (ServerMsg.sessionStatus sid false false)
      | some _ =>
          sendMessage connectionId connection
            (ServerMsg.sessionStatus sid true (getEntry st.activeSessions sid).isSome)

/-- A decoded inbound client message: its `type` string and `data`. -/
structure RawMessage where
  type : String
  data : MsgData
deriving DecidableEq

/-- The `supportedTypes` list of the unknown-type error response
(lines 169–172). -/
def supportedTypes : List String :=
  ["start_session", "stop_session", "subscribe_telemetry",
   "unsubscribe_telemetry", "request_session_status", "ping"]

/-- `handleClientMessage` (lines 130–176): the switch on `message.type`.
An unknown type falls through to the structured error listing the six
supported types. -/
def handleClientMessage (connectionId : String) (message : RawMessage) (now : ℚ)
    (fresh : SimulationState) (st : ServerState) (db : Database) :
    ServerState × Database × List (String × ServerMsg) :=
  match getEntry st.activeConnections connectionId with
  | none => (st, db, [])
  | some connection =>
      if message.type = "start_session" then
        handleStartSession connectionId message.data now fresh st db
      else if message.type = "stop_session" then
        handleStopSession connectionId st db
      else if message.type = "subscribe_telemetry" then
        let r := handleSubscribeTelemetry connectionId message.data st
        (r.1, db, r.2)
      else if message.type = "unsubscribe_telemetry" then
        let r := handleUnsubscribeTelemetry connectionId st
        (r.1, db, r.2)
      else if message.type = "request_session_status" then
        (st, db, handleSessionStatusRequest connectionId message.data st db)
      else if message.type = "ping" then
        (st, db, sendMessage connectionId connection ServerMsg.pong)
      else
        (st, db, sendMessage connectionId connection
          (ServerMsg.errorMsg ("Unknown message type: " ++ message.type)
            (some supportedTypes)))

/-- A raw inbound frame: either undecodable (non-JSON) or a decoded
message. -/
inductive Inbound
  | malformed
  | parsed (message : RawMessage)
deriving DecidableEq

/-- The socket `message` event handler (lines 74–97): `JSON.parse`
failure is caught and answered with the generic invalid-format error
(before the activity refresh, which sits after the parse); a decoded
message refreshes the connection's activity and is dispatched. -/
def onSocketMessage (connectionId : String) (inbound : Inbound) (now : ℚ)
    (fresh : SimulationState) (st : ServerState) (db : Database) :
    ServerState × Database × List (String × ServerMsg) :=
  match inbound with
  | .malformed =>
      match getEntry st.activeConnections connectionId with
      | some connection =>
          (st, db, sendMessage connectionId connection
            (ServerMsg.errorMsg "Invalid message format" none))
      | none => (st, db, [])
  | .parsed message =>
      let st1 := { st with
        activeConnections := touchConnection connectionId now st.activeConnections }
      handleClientMessage connectionId message now fresh st1 db

/-! ### Generic association-list lemmas -/

theorem getEntry_eq_none_iff {α : Type} (l : List (String × α)) (k : String) :
    getEntry l k = none ↔ ∀ p ∈ l, p.1 ≠ k := by
  induction l with
  | nil => simp [getEntry]
  | cons p rest ih =>
      by_cases h : p.1 = k
      · simp [getEntry, h]
      · simp [getEntry, h, ih]

theorem getEntry_eq_some_mem {α : Type} {l : List (String × α)} {k : String} {v : α}
    (h : getEntry l k = some v) : (k, v) ∈ l := by
  induction l with
  | nil => simp [getEntry] at h
  | cons p rest ih =>
      by_cases hk : p.1 = k
      · rw [getEntry, if_pos hk] at h
        obtain ⟨k1, v1⟩ := p
        obtain rfl : k1 = k := hk
        obtain rfl : v1 = v := by injection h
        exact List.mem_cons_self _ _
      · rw [getEntry, if_neg hk] at h
        exact List.mem_cons_of_mem _ (ih h)

theorem keys_nodup_unique {α : Type} {l : List (String × α)}
    (h : (l.map Prod.fst).Nodup) {p q : String × α}
    (hp : p ∈ l) (hq : q ∈ l) (heq : p.1 = q.1) : p = q := by
  induction l with
  | nil => simp at hp
  | cons a rest ih =>
      rw [List.map_cons, List.nodup_cons] at h
      rcases List.mem_cons.mp hp with rfl | hp2
      · rcases List.mem_cons.mp hq with rfl | hq2
        · rfl
        · exact absurd (heq ▸ List.mem_map_of_mem Prod.fst hq2) h.1
      · rcases List.mem_cons.mp hq with rfl | hq2
        · exact absurd (heq ▸ List.mem_map_of_mem Prod.fst hp2) h.1
        · exact ih h.2 hp2 hq2

theorem two_mem_two_le_length {α : Type} {l : List α} {x y : α}
    (hx : x ∈ l) (hy : y ∈ l) (hxy : x ≠ y) : 2 ≤ l.length := by
  induction l with
  | nil => simp at hx
  | cons a rest ih =>
      rcases List.mem_cons.mp hx with rfl | hx2
      · rcases List.mem_cons.mp hy with rfl | hy2
        · exact absurd rfl hxy
        · have : 0 < rest.length := List.length_pos.mpr (List.ne_nil_of_mem hy2)
          simp only [List.length_cons]; omega
      · have : 0 < rest.length := List.length_pos.mpr (List.ne_nil_of_mem hx2)
        simp only [List.length_cons]; omega

theorem all_eq_length_le_one {α : Type} {l : List α} {a : α}
    (hnd : l.Nodup) (hall : ∀ x ∈ l, x = a) : l.length ≤ 1 := by
  match l with
  | [] => simp
  | [x] => simp
  | x :: y :: rest =>
      have hx : x = a := hall x (List.mem_cons_self _ _)
      have hy : y = a := hall y (List.mem_cons_of_mem _ (List.mem_cons_self _ _))
      rw [List.nodup_cons] at hnd
      exact absurd (by rw [hx, hy]; exact List.mem_cons_self _ _) hnd.1

theorem getEntry_removeKey_self {α : Type} (l : List (String × α)) (k : String) :
    getEntry (removeKey l k) k = none := by
  rw [getEntry_eq_none_iff]
  intro p hp
  have := List.mem_filter.mp hp
  simpa using this.2

/-! ### C2: hazard classifier on the literal spec inputs -/

/-- C2: with no active cooldown, the rule cascade of `checkForHazards`
yields `speed_warning`/`medium` on (speed 130, distance 100),
`emergency_brake`/`critical` on (50, 3), and `collision_warning`/`high`
on (90, 25). -/
theorem checkForHazards_literal_outputs :
    (checkForHazards 130 100 (initSimulationState 0 0 0 0 0 0) 10000).1 =
        some ⟨.speed_warning, .medium⟩ ∧
    (checkForHazards 50 3 (initSimulationState 0 0 0 0 0 0) 10000).1 =
        some ⟨.emergency_brake, .critical⟩ ∧
    (checkForHazards 90 25 (initSimulationState 0 0 0 0 0 0) 10000).1 =
        some ⟨.collision_warning, .high⟩ := by
  refine ⟨?_, ?_, ?_⟩ <;> (unfold checkForHazards initSimulationState; norm_num)

/-! ### C1: the Motion Model's displacement is `NaN` (code bug) -/

/-- C1 (code bug witness): on the very first tick of a freshly started
simulation (all five initialization draws and all tick draws at `1/2`,
tick at `now = 1000`), `routeProgress` goes from `0` to `NaN` — because
`state.intervalMs` is `undefined` the tick displacement
`speedMs * (state.intervalMs / 1000)` is `NaN`, and `lat` and `lng`
become `NaN` as well; the claimed displacement
`speed_ms * tickInterval/1000` and the monotonicity of `routeProgress`
both fail.  (The values of `Math.sin`/`Math.cos`/`Math.PI`, here
instantiated arbitrarily, are irrelevant: `NaN` absorbs them.) -/
theorem updateSimulationState_routeProgress_nan :
    (initSimulationState 0 (1/2) (1/2) (1/2) (1/2) (1/2)).routeProgress = some 0 ∧
    (initSimulationState 0 (1/2) (1/2) (1/2) (1/2) (1/2)).intervalMs = none ∧
    (updateSimulationState (fun x => x) (fun x => x) 3
      ⟨1/2, 1/2, 1/2, 1/2, 1/2, 1/2, 1/2, 1/2⟩ 1000
      (initSimulationState 0 (1/2) (1/2) (1/2) (1/2) (1/2))).routeProgress = none ∧
    (updateSimulationState (fun x => x) (fun x => x) 3
      ⟨1/2, 1/2, 1/2, 1/2, 1/2, 1/2, 1/2, 1/2⟩ 1000
      (initSimulationState 0 (1/2) (1/2) (1/2) (1/2) (1/2))).currentLat = none ∧
    (updateSimulationState (fun x => x) (fun x => x) 3
      ⟨1/2, 1/2, 1/2, 1/2, 1/2, 1/2, 1/2, 1/2⟩ 1000
      (initSimulationState 0 (1/2) (1/2) (1/2) (1/2) (1/2))).currentLng = none :=
  ⟨rfl, rfl, rfl, rfl, rfl⟩

/-! ### C4: motion bounds invariant -/

/-- The bounds of §8 of the spec: speed in [20,140] km/h, obstacle
distance in [5,300] m. -/
def SimBounds (st : SimulationState) : Prop :=
  20 ≤ st.currentSpeed ∧ st.currentSpeed ≤ 140 ∧
  5 ≤ st.currentObstacleDistance ∧ st.currentObstacleDistance ≤ 300

instance (st : SimulationState) : Decidable (SimBounds st) := by
  unfold SimBounds; infer_instance

theorem updateSimulationState_bounds (msin mcos : ℚ → ℚ) (mpi : ℚ) (d : Draws)
    (now : ℚ) (st : SimulationState) (hd : d.InRange) :
    SimBounds (updateSimulationState msin mcos mpi d now st) := by
  obtain ⟨h1, h2, h3, h4, h5, h6, h7, h8⟩ := hd
  unfold SimBounds updateSimulationState
  refine ⟨le_max_left _ _, max_le (by norm_num) (min_le_left _ _), ?_, ?_⟩
  · simp only
    split_ifs with hA hB hC
    · nlinarith [h5.1, h5.2]
    · nlinarith [h7.1, h7.2]
    · exact le_max_left _ _
    · exact le_max_left _ _
  · simp only
    split_ifs with hA hB hC
    · nlinarith [h5.1, h5.2]
    · nlinarith [h7.1, h7.2]
    · exact max_le (by norm_num) (min_le_left _ _)
    · exact max_le (by norm_num) (min_le_left _ _)

theorem initSimulationState_bounds (now rSpeed rLat rLng rDist rTrend : ℚ)
    (hS : 0 ≤ rSpeed ∧ rSpeed < 1) (hD : 0 ≤ rDist ∧ rDist < 1) :
    SimBounds (initSimulationState now rSpeed rLat rLng rDist rTrend) := by
  unfold SimBounds initSimulationState
  refine ⟨?_, ?_, ?_, ?_⟩ <;> simp only <;> nlinarith [hS.1, hS.2, hD.1, hD.2]

theorem advanceTicks_bounds (msin mcos : ℚ → ℚ) (mpi : ℚ)
    (ticks : List (ℚ × Draws)) (st : SimulationState)
    (hticks : ∀ p ∈ ticks, Draws.InRange p.2) (hst : SimBounds st) :
    SimBounds (advanceTicks msin mcos mpi ticks st) := by
  induction ticks generalizing st with
  | nil => exact hst
  | cons p rest ih =>
      obtain ⟨now, d⟩ := p
      exact ih _ (fun q hq => hticks q (List.mem_cons_of_mem _ hq))
        (updateSimulationState_bounds msin mcos mpi d now st
          (hticks (now, d) (List.mem_cons_self _ _)))

/-- C4: starting from the randomized initial state of
`startTelemetrySimulation` (speed 60–100, obstacle distance 50–250) and
after any number of `updateSimulationState` ticks, the bounds
`20 ≤ speed ≤ 140` and `5 ≤ obstacleDistance ≤ 300` hold, for every
outcome of the `Math.random()` draws (each in `[0,1)`) and for every
behavior of `Math.sin`/`Math.cos`/`Math.PI`. -/
theorem motion_bounds_invariant (msin mcos : ℚ → ℚ)
    (mpi now rSpeed rLat rLng rDist rTrend : ℚ) (ticks : List (ℚ × Draws))
    (hS : 0 ≤ rSpeed ∧ rSpeed < 1) (hD : 0 ≤ rDist ∧ rDist < 1)
    (hticks : ∀ p ∈ ticks, Draws.InRange p.2) :
    SimBounds (advanceTicks msin mcos mpi ticks
      (initSimulationState now rSpeed rLat rLng rDist rTrend)) :=
  advanceTicks_bounds msin mcos mpi ticks _ hticks
    (initSimulationState_bounds now rSpeed rLat rLng rDist rTrend hS hD)

/-- C4 witness: a concrete three-tick run with all draws at `1/2`. -/
theorem motion_bounds_invariant_witness :
    SimBounds (advanceTicks (fun x => x) (fun x => x) 3
      [(1000, ⟨1/2, 1/2, 1/2, 1/2, 1/2, 1/2, 1/2, 1/2⟩),
       (2000, ⟨1/10, 9/10, 1/10, 1/10, 1/10, 1/10, 1/10, 1/10⟩),
       (3000, ⟨0, 0, 0, 0, 0, 0, 0, 0⟩)]
      (initSimulationState 0 (1/2) (1/2) (1/2) (1/2) (1/2))) :=
  motion_bounds_invariant (fun x => x) (fun x => x) 3 0 (1/2) (1/2) (1/2) (1/2) (1/2) _
    (by norm_num) (by norm_num)
    (by
      intro p hp
      simp only [List.mem_cons, List.not_mem_nil, or_false] at hp
      rcases hp with rfl | rfl | rfl <;> norm_num [Draws.InRange])

/-! ### C3: cooldown suppression -/

theorem checkForHazards_cases (sp od : ℚ) (st : SimulationState) (now : ℚ) :
    checkForHazards sp od st now = (none, st) ∨
    ((checkForHazards sp od st now).2 = { st with lastAlertTime := now } ∧
      (checkForHazards sp od st now).1.isSome ∧
      st.alertCooldown ≤ now - st.lastAlertTime) := by
  unfold checkForHazards
  by_cases h : now - st.lastAlertTime < st.alertCooldown
  · left; rw [if_pos h]
  · rw [if_neg h]
    simp only
    split
    · right; exact ⟨rfl, rfl, le_of_not_lt h⟩
    · left; rfl

theorem checkForHazards_cooldown_preserved (sp od : ℚ) (st : SimulationState) (now : ℚ) :
    ((checkForHazards sp od st now).2).alertCooldown = st.alertCooldown := by
  rcases checkForHazards_cases sp od st now with h | ⟨h, _, _⟩
  · rw [h]
  · rw [h]

theorem alertTimes_ge (trace : List (ℚ × ℚ × ℚ)) :
    ∀ st : SimulationState, st.alertCooldown = 5000 →
      ∀ t ∈ alertTimes st trace, st.lastAlertTime + 5000 ≤ t := by
  induction trace with
  | nil => intro st _ t ht; simp [alertTimes] at ht
  | cons p rest ih =>
      obtain ⟨now, sp, od⟩ := p
      intro st h5 t ht
      rcases hck : checkForHazards sp od st now with ⟨o, st1⟩
      cases o with
      | none =>
          simp only [alertTimes, hck] at ht
          rcases checkForHazards_cases sp od st now with hc | ⟨_, hfired, _⟩
          · rw [hck] at hc
            obtain ⟨-, rfl⟩ := Prod.mk.injEq .. ▸ hc
            exact ih _ h5 t ht
          · rw [hck] at hfired
            simp at hfired
      | some a =>
          simp only [alertTimes, hck] at ht
          rcases checkForHazards_cases sp od st now with hc | ⟨hsnd, _, hcool⟩
          · rw [hck] at hc
            obtain ⟨h1, -⟩ := Prod.mk.injEq .. ▸ hc
            simp at h1
          · rw [hck] at hsnd
            simp only at hsnd
            subst hsnd
            rw [h5] at hcool
            rcases List.mem_cons.mp ht with rfl | hmem
            · linarith
            · have hrest := ih { st with lastAlertTime := now } (by simpa using h5) t hmem
              simp only at hrest
              linarith

theorem alertTimes_pairwise (trace : List (ℚ × ℚ × ℚ)) :
    ∀ st : SimulationState, st.alertCooldown = 5000 →
      List.Pairwise (fun a b => a + 5000 ≤ b) (alertTimes st trace) := by
  induction trace with
  | nil => intro st _; simp [alertTimes]
  | cons p rest ih =>
      obtain ⟨now, sp, od⟩ := p
      intro st h5
      rcases hck : checkForHazards sp od st now with ⟨o, st1⟩
      cases o with
      | none =>
          simp only [alertTimes, hck]
          rcases checkForHazards_cases sp od st now with hc | ⟨_, hfired, _⟩
          · rw [hck] at hc
            obtain ⟨-, rfl⟩ := Prod.mk.injEq .. ▸ hc
            exact ih _ h5
          · rw [hck] at hfired
            simp at hfired
      | some a =>
          simp only [alertTimes, hck]
          rcases checkForHazards_cases sp od st now with hc | ⟨hsnd, _, _⟩
          · rw [hck] at hc
            obtain ⟨h1, -⟩ := Prod.mk.injEq .. ▸ hc
            simp at h1
          · rw [hck] at hsnd
            simp only at hsnd
            subst hsnd
            refine List.pairwise_cons.mpr ⟨?_, ih _ (by simpa using h5)⟩
            intro b hb
            have := alertTimes_ge rest { st with lastAlertTime := now }
              (by simpa using h5) b hb
            simpa using this

/-- `checkForHazards` on the sample (speed 130, distance 100) with an
expired cooldown: the `speed > 120` rule fires. -/
theorem checkForHazards_130_100 (st : SimulationState) (t : ℚ)
    (h : ¬ (t - st.lastAlertTime < st.alertCooldown)) :
    checkForHazards 130 100 st t =
      (some ⟨.speed_warning, .medium⟩, { st with lastAlertTime := t }) := by
  unfold checkForHazards
  rw [if_neg h]
  norm_num

/-- C3: (i) a call within the cooldown window returns `null` and leaves
the state — in particular `lastAlertTime` — unchanged, regardless of rule
match; (ii) a call that returns an alert had an expired cooldown and sets
`lastAlertTime` to the current time; (iii) consequently the times of any
two alerts emitted across any sequence of calls are at least 5000 ms
apart (the cooldown fixed at creation); (iv) two hazard-triggering
samples 5001 ms apart both yield alerts. -/
theorem hazard_cooldown_spec :
    (∀ sp od (st : SimulationState) (now : ℚ),
      now - st.lastAlertTime < st.alertCooldown →
        checkForHazards sp od st now = (none, st)) ∧
    (∀ sp od (st : SimulationState) (now : ℚ) a st1,
      checkForHazards sp od st now = (some a, st1) →
        st1.lastAlertTime = now ∧ st.alertCooldown ≤ now - st.lastAlertTime) ∧
    (∀ (st : SimulationState) trace, st.alertCooldown = 5000 →
        List.Pairwise (fun a b => a + 5000 ≤ b) (alertTimes st trace)) ∧
    (∀ (st : SimulationState) (t : ℚ), st.alertCooldown = 5000 →
      st.lastAlertTime + 5000 ≤ t →
        alertTimes st [(t, 130, 100), (t + 5001, 130, 100)] = [t, t + 5001]) := by
  refine ⟨?_, ?_, ?_, ?_⟩
  · intro sp od st now h
    unfold checkForHazards
    rw [if_pos h]
  · intro sp od st now a st1 hck
    rcases checkForHazards_cases sp od st now with hc | ⟨hsnd, _, hcool⟩
    · rw [hck] at hc
      obtain ⟨h1, -⟩ := Prod.mk.injEq .. ▸ hc
      simp at h1
    · rw [hck] at hsnd
      simp only at hsnd
      subst hsnd
      exact ⟨rfl, hcool⟩
  · exact fun st trace h5 => alertTimes_pairwise trace st h5
  · intro st t h5 hle
    have h1 : ¬ (t - st.lastAlertTime < st.alertCooldown) := by rw [h5]; linarith
    have h2 : ¬ (t + 5001 - ({ st with lastAlertTime := t } :
        SimulationState).lastAlertTime <
        ({ st with lastAlertTime := t } : SimulationState).alertCooldown) := by
      simp only
      rw [show ({ st with lastAlertTime := t } :
        SimulationState).alertCooldown = st.alertCooldown from rfl, h5]
      norm_num
    simp only [alertTimes, checkForHazards_130_100 st t h1,
      checkForHazards_130_100 _ _ h2]

/-- C3 witness: a call 400 ms after the last alert (cooldown 5000 ms) is
suppressed even though the sample (speed 130) matches a rule. -/
theorem hazard_cooldown_spec_witness :
    checkForHazards 130 100 (initSimulationState 0 0 0 0 0 0) 400 =
      (none, initSimulationState 0 0 0 0 0 0) :=
  hazard_cooldown_spec.1 130 100 _ 400 (by norm_num [initSimulationState])

/-! ### C5: broadcast fan-out and ordering -/

/-- Recognizer for the per-tick `telemetry_data` send. -/
def ServerMsg.isTelemetry : ServerMsg → Bool
  | .telemetryData _ _ _ _ => true
  | _ => false

/-- Recognizer for the cross-session `global_alert` send. -/
def ServerMsg.isGlobalAlert : ServerMsg → Bool
  | .globalAlert _ _ => true
  | _ => false

theorem mem_broadcastGlobalAlert_iff (a : HazardAlert) (sessionId : String)
    (conns : List (String × Connection)) (cid : String) (m : ServerMsg) :
    (cid, m) ∈ broadcastGlobalAlert a sessionId conns ↔
      m = ServerMsg.globalAlert a sessionId ∧
        ∃ c, (cid, c) ∈ conns ∧ c.readyStateOpen = true := by
  unfold broadcastGlobalAlert sendMessage
  rw [List.mem_flatMap]
  constructor
  · rintro ⟨p, hp, hm⟩
    by_cases ho : p.2.readyStateOpen
    · rw [if_pos ho, if_pos ho] at hm
      simp only [List.mem_singleton, Prod.mk.injEq] at hm
      exact ⟨hm.2, p.2, by rw [hm.1]; exact hp, ho⟩
    · rw [if_neg ho] at hm
      simp at hm
  · rintro ⟨rfl, c, hc, ho⟩
    exact ⟨(cid, c), hc, by simp [ho]⟩

/-- The per-subscriber telemetry sends of one tick (the first loop of
`broadcastTelemetryData`). -/
def telemetrySends (sessionId : String) (sp od : ℚ) (alert : Option HazardAlert)
    (conns : List (String × Connection)) : List (String × ServerMsg) :=
  conns.flatMap fun p =>
    if p.2.sessionId = some sessionId ∧ p.2.readyStateOpen then
      sendMessage p.1 p.2 (ServerMsg.telemetryData sessionId sp od alert)
    else []

theorem broadcastTelemetryData_none (sessionId : String) (sp od : ℚ)
    (conns : List (String × Connection)) :
    broadcastTelemetryData sessionId sp od none conns =
      telemetrySends sessionId sp od none conns ++ [] := rfl

theorem broadcastTelemetryData_some (sessionId : String) (sp od : ℚ)
    (a : HazardAlert) (conns : List (String × Connection)) :
    broadcastTelemetryData sessionId sp od (some a) conns =
      telemetrySends sessionId sp od (some a) conns ++
        (if a.severity = Severity.critical then
          broadcastGlobalAlert a sessionId conns
        else []) := rfl

theorem mem_telemetrySends_iff (sessionId : String) (sp od : ℚ)
    (alert : Option HazardAlert) (conns : List (String × Connection)) (cid : String) :
    (cid, ServerMsg.telemetryData sessionId sp od alert) ∈
        telemetrySends sessionId sp od alert conns ↔
      ∃ c, (cid, c) ∈ conns ∧ c.sessionId = some sessionId ∧ c.readyStateOpen = true := by
  unfold telemetrySends
  rw [List.mem_flatMap]
  constructor
  · rintro ⟨p, hp, hm⟩
    by_cases hc : p.2.sessionId = some sessionId ∧ p.2.readyStateOpen
    · rw [if_pos hc] at hm
      unfold sendMessage at hm
      rw [if_pos hc.2] at hm
      simp only [List.mem_singleton, Prod.mk.injEq] at hm
      exact ⟨p.2, by rw [hm.1]; exact hp, hc.1, hc.2⟩
    · rw [if_neg hc] at hm
      simp at hm
  · rintro ⟨c, hc, hsub, ho⟩
    refine ⟨(cid, c), hc, ?_⟩
    rw [if_pos ⟨hsub, ho⟩]
    unfold sendMessage
    rw [if_pos ho]
    simp

theorem mem_telemetrySends_shape (sessionId : String) (sp od : ℚ)
    (alert : Option HazardAlert) (conns : List (String × Connection))
    (e : String × ServerMsg) (he : e ∈ telemetrySends sessionId sp od alert conns) :
    e.2 = ServerMsg.telemetryData sessionId sp od alert := by
  unfold telemetrySends at he
  rw [List.mem_flatMap] at he
  obtain ⟨p, hp, hm⟩ := he
  by_cases hc : p.2.sessionId = some sessionId ∧ p.2.readyStateOpen
  · rw [if_pos hc] at hm
    unfold sendMessage at hm
    rw [if_pos hc.2] at hm
    simp only [List.mem_singleton] at hm
    rw [hm]
  · rw [if_neg hc] at hm
    simp at hm

/-- C5: on each tick publication, (i) the `telemetry_data` message goes
to a connection iff that connection is open and subscribed to the
publishing session; (ii) if the alert is critical, a `global_alert` is
additionally sent to every open connection regardless of subscription;
(iii) any `global_alert` send means this tick's alert exists and is
critical (so no global send for null or non-critical alerts);
(iv) ordering: the event list is all telemetry sends followed by all
global-alert sends. -/
theorem broadcast_fanout_spec (sessionId : String) (sp od : ℚ)
    (alert : Option HazardAlert) (conns : List (String × Connection)) :
    (∀ cid, (cid, ServerMsg.telemetryData sessionId sp od alert) ∈
        broadcastTelemetryData sessionId sp od alert conns ↔
      ∃ c, (cid, c) ∈ conns ∧ c.sessionId = some sessionId ∧ c.readyStateOpen = true) ∧
    (∀ a, alert = some a → a.severity = Severity.critical →
      ∀ cid c, (cid, c) ∈ conns → c.readyStateOpen = true →
        (cid, ServerMsg.globalAlert a sessionId) ∈
          broadcastTelemetryData sessionId sp od alert conns) ∧
    (∀ cid a sid, (cid, ServerMsg.globalAlert a sid) ∈
        broadcastTelemetryData sessionId sp od alert conns →
      sid = sessionId ∧ alert = some a ∧ a.severity = Severity.critical ∧
        ∃ c, (cid, c) ∈ conns ∧ c.readyStateOpen = true) ∧
    (∃ A B, broadcastTelemetryData sessionId sp od alert conns = A ++ B ∧
      (∀ e ∈ A, ServerMsg.isTelemetry (Prod.snd e) = true) ∧
      (∀ e ∈ B, ServerMsg.isGlobalAlert (Prod.snd e) = true)) := by
  refine ⟨?_, ?_, ?_, ?_⟩
  · intro cid
    rcases alert with _ | a
    · rw [broadcastTelemetryData_none, List.append_nil, mem_telemetrySends_iff]
    · rw [broadcastTelemetryData_some, List.mem_append, mem_telemetrySends_iff]
      constructor
      · rintro (h | hg)
        · exact h
        · by_cases hcrit : a.severity = Severity.critical
          · rw [if_pos hcrit, mem_broadcastGlobalAlert_iff] at hg
            simp at hg
          · rw [if_neg hcrit] at hg
            simp at hg
      · exact fun h => Or.inl h
  · rintro a rfl hcrit cid c hc ho
    rw [broadcastTelemetryData_some, List.mem_append]
    right
    rw [if_pos hcrit, mem_broadcastGlobalAlert_iff]
    exact ⟨rfl, c, hc, ho⟩
  · intro cid a sid hmem
    rcases alert with _ | b
    · rw [broadcastTelemetryData_none, List.append_nil] at hmem
      have := mem_telemetrySends_shape _ _ _ _ _ _ hmem
      simp at this
    · rw [broadcastTelemetryData_some, List.mem_append] at hmem
      rcases hmem with hs | hg
      · have := mem_telemetrySends_shape _ _ _ _ _ _ hs
        simp at this
      · by_cases hcrit : b.severity = Severity.critical
        · rw [if_pos hcrit, mem_broadcastGlobalAlert_iff] at hg
          obtain ⟨heq, hex⟩ := hg
          obtain ⟨rfl, rfl⟩ : a = b ∧ sid = sessionId := by
            injection heq with h1 h2; exact ⟨h1, h2⟩
          exact ⟨rfl, rfl, hcrit, hex⟩
        · rw [if_neg hcrit] at hg
          simp at hg
  · rcases alert with _ | a
    · refine ⟨telemetrySends sessionId sp od none conns, [],
        broadcastTelemetryData_none .., ?_, by simp⟩
      intro e he
      rw [mem_telemetrySends_shape _ _ _ _ _ _ he]
      rfl
    · refine ⟨telemetrySends sessionId sp od (some a) conns,
        (if a.severity = Severity.critical then
          broadcastGlobalAlert a sessionId conns else []),
        broadcastTelemetryData_some .., ?_, ?_⟩
      · intro e he
        rw [mem_telemetrySends_shape _ _ _ _ _ _ he]
        rfl
      · intro e he
        by_cases hcrit : a.severity = Severity.critical
        · rw [if_pos hcrit] at he
          obtain ⟨e1, e2⟩ := e
          rw [mem_broadcastGlobalAlert_iff] at he
          rw [he.1]
          rfl
        · rw [if_neg hcrit] at he
          simp at he

/-- C5 witness: with two connections subscribed to session `A` and a
third unsubscribed one, a critical alert reaches the third connection as
a `global_alert`. -/
theorem broadcast_fanout_spec_witness :
    ("c3", ServerMsg.globalAlert ⟨.emergency_brake, .critical⟩ "A") ∈
      broadcastTelemetryData "A" 50 100 (some ⟨.emergency_brake, .critical⟩)
        [("c1", ⟨some "A", 0, true⟩), ("c2", ⟨some "A", 0, true⟩),
         ("c3", ⟨none, 0, true⟩)] :=
  (broadcast_fanout_spec "A" 50 100 (some ⟨.emergency_brake, .critical⟩)
      [("c1", ⟨some "A", 0, true⟩), ("c2", ⟨some "A", 0, true⟩),
       ("c3", ⟨none, 0, true⟩)]).2.1
    ⟨.emergency_brake, .critical⟩ rfl rfl "c3" ⟨none, 0, true⟩ (by simp) rfl

/-! ### C6: at most one simulation per session -/

/-- C6: `startTelemetrySimulation` for a session id that already has a
running simulation changes nothing — no second timer, the existing state
and interval untouched (and the call returns normally, it is not an
error) — and starting never introduces a duplicate registry entry. -/
theorem startTelemetrySimulation_at_most_one (sid : String) (interval : ℚ)
    (fresh : SimulationState) (now : ℚ) (sessions : List (String × ActiveSession)) :
    ((getEntry sessions sid).isSome →
      startTelemetrySimulation sid interval fresh now sessions = sessions) ∧
    ((sessions.map Prod.fst).Nodup →
      ((startTelemetrySimulation sid interval fresh now sessions).map Prod.fst).Nodup) := by
  constructor
  · intro h
    unfold startTelemetrySimulation
    rw [if_pos h]
  · intro hnd
    unfold startTelemetrySimulation
    by_cases h : (getEntry sessions sid).isSome
    · rw [if_pos h]; exact hnd
    · rw [if_neg h, List.map_cons, List.nodup_cons]
      refine ⟨?_, hnd⟩
      intro hmem
      rw [List.mem_map] at hmem
      obtain ⟨p, hp, hps⟩ := hmem
      exact (getEntry_eq_none_iff sessions sid).mp
        (Option.not_isSome_iff_eq_none.mp h) p hp hps

/-- C6 witness: a second `start` for the already-running session `s`
leaves the registry exactly as it was. -/
theorem startTelemetrySimulation_at_most_one_witness :
    startTelemetrySimulation "s" 1000 (initSimulationState 1 0 0 0 0 0) 7
        [("s", ⟨initSimulationState 0 0 0 0 0 0, 0, 1000⟩)] =
      [("s", ⟨initSimulationState 0 0 0 0 0 0, 0, 1000⟩)] :=
  (startTelemetrySimulation_at_most_one "s" 1000 (initSimulationState 1 0 0 0 0 0) 7
      [("s", ⟨initSimulationState 0 0 0 0 0 0, 0, 1000⟩)]).1
    (by simp [getEntry])

/-! ### C7: auto-stop on last subscriber removal -/

theorem disconnect_removes_connection (cid : String) (st : ServerState) :
    getEntry (handleClientDisconnect cid st).activeConnections cid = none := by
  unfold handleClientDisconnect
  rcases h : getEntry st.activeConnections cid with _ | conn
  · simp only [h]
  · simp only [h]
    exact getEntry_removeKey_self _ _

theorem disconnect_stops_last (cid sid : String) (conn : Connection) (st : ServerState)
    (hlook : getEntry st.activeConnections cid = some conn)
    (hnodup : (st.activeConnections.map Prod.fst).Nodup)
    (hsid : conn.sessionId = some sid) (hne : sid ≠ "")
    (honly : ∀ p ∈ st.activeConnections, p.1 ≠ cid → p.2.sessionId ≠ some sid) :
    getEntry (handleClientDisconnect cid st).activeSessions sid = none := by
  unfold handleClientDisconnect
  simp only [hlook, hsid]
  rw [if_neg hne]
  have hmem : (cid, conn) ∈ st.activeConnections := getEntry_eq_some_mem hlook
  have hall : ∀ x ∈ st.activeConnections.filter (fun p => p.2.sessionId = some sid),
      x = (cid, conn) := by
    intro x hx
    have hx2 := List.mem_filter.mp hx
    have hxs : x.2.sessionId = some sid := by simpa using hx2.2
    have hxcid : x.1 = cid := by
      by_contra hna
      exact honly x hx2.1 hna hxs
    exact keys_nodup_unique hnodup hx2.1 hmem hxcid
  have hnd : (st.activeConnections.filter (fun p => p.2.sessionId = some sid)).Nodup :=
    (List.Nodup.of_map _ hnodup).filter _
  rw [if_pos (all_eq_length_le_one hnd hall)]
  exact getEntry_removeKey_self _ _

theorem disconnect_keeps_other (cid sid : String) (conn : Connection) (st : ServerState)
    (hlook : getEntry st.activeConnections cid = some conn)
    (hsid : conn.sessionId = some sid) (hne : sid ≠ "")
    (hother : ∃ p ∈ st.activeConnections, p.1 ≠ cid ∧ p.2.sessionId = some sid) :
    (handleClientDisconnect cid st).activeSessions = st.activeSessions := by
  unfold handleClientDisconnect
  simp only [hlook, hsid]
  rw [if_neg hne]
  obtain ⟨q, hq, hqcid, hqs⟩ := hother
  have hmem : (cid, conn) ∈ st.activeConnections := getEntry_eq_some_mem hlook
  have h1 : (cid, conn) ∈ st.activeConnections.filter (fun p => p.2.sessionId = some sid) :=
    List.mem_filter.mpr ⟨hmem, by simpa using hsid⟩
  have h2 : q ∈ st.activeConnections.filter (fun p => p.2.sessionId = some sid) :=
    List.mem_filter.mpr ⟨hq, by simpa using hqs⟩
  have hne2 : q ≠ (cid, conn) := fun he => hqcid (by rw [he])
  have hlen := two_mem_two_le_length h2 h1 hne2
  rw [if_neg (by omega)]

/-- C7: on removal of a connection (explicit disconnect and staleness
eviction both run `handleClientDisconnect`), if it was the last
connection subscribed to its session the session's simulation is stopped
(its registry entry — state and timer — is gone); if another connection
remains subscribed, the session registry is untouched; and the
connection itself is always dropped. -/
theorem handleClientDisconnect_spec (cid sid : String) (conn : Connection)
    (st : ServerState)
    (hlook : getEntry st.activeConnections cid = some conn)
    (hnodup : (st.activeConnections.map Prod.fst).Nodup)
    (hsid : conn.sessionId = some sid) (hne : sid ≠ "") :
    ((∀ p ∈ st.activeConnections, p.1 ≠ cid → p.2.sessionId ≠ some sid) →
      getEntry (handleClientDisconnect cid st).activeSessions sid = none) ∧
    ((∃ p ∈ st.activeConnections, p.1 ≠ cid ∧ p.2.sessionId = some sid) →
      (handleClientDisconnect cid st).activeSessions = st.activeSessions) ∧
    getEntry (handleClientDisconnect cid st).activeConnections cid = none :=
  ⟨fun honly => disconnect_stops_last cid sid conn st hlook hnodup hsid hne honly,
   fun hother => disconnect_keeps_other cid sid conn st hlook hsid hne hother,
   disconnect_removes_connection cid st⟩

/-- C7 witness: with a single subscriber, its disconnect tears the
running simulation down. -/
theorem handleClientDisconnect_spec_witness :
    getEntry (handleClientDisconnect "c1"
      ⟨[("c1", ⟨some "s", 0, true⟩)],
       [("s", ⟨initSimulationState 0 0 0 0 0 0, 0, 1000⟩)]⟩).activeSessions "s" = none :=
  (handleClientDisconnect_spec "c1" "s" ⟨some "s", 0, true⟩
      ⟨[("c1", ⟨some "s", 0, true⟩)],
       [("s", ⟨initSimulationState 0 0 0 0 0 0, 0, 1000⟩)]⟩
      (by simp [getEntry]) (by simp) rfl (by simp)).1
    (by simp)

/-! ### Connection-map update lemmas -/

theorem getEntry_touchConnection_self (cid : String) (now : ℚ)
    (conns : List (String × Connection)) :
    getEntry (touchConnection cid now conns) cid =
      (getEntry conns cid).map (fun c => { c with lastActivity := now }) := by
  induction conns with
  | nil => rfl
  | cons p rest ih =>
      by_cases h : p.1 = cid
      · simp [touchConnection, getEntry, h]
      · simpa [touchConnection, getEntry, h] using ih

theorem getEntry_setConnSession_self (cid : String) (v : Option String)
    (conns : List (String × Connection)) :
    getEntry (setConnSession cid v conns) cid =
      (getEntry conns cid).map (fun c => { c with sessionId := v }) := by
  induction conns with
  | nil => rfl
  | cons p rest ih =>
      by_cases h : p.1 = cid
      · simp [setConnSession, getEntry, h]
      · simpa [setConnSession, getEntry, h] using ih

theorem setConnSession_keys (cid : String) (v : Option String)
    (conns : List (String × Connection)) :
    (setConnSession cid v conns).map Prod.fst = conns.map Prod.fst := by
  induction conns with
  | nil => rfl
  | cons p rest ih =>
      by_cases h : p.1 = cid
      · simpa [setConnSession, h] using ih
      · simpa [setConnSession, h] using ih

theorem mem_setConnSession_ne {cid : String} {v : Option String}
    {conns : List (String × Connection)} {q : String × Connection}
    (hq : q ∈ setConnSession cid v conns) (hne : q.1 ≠ cid) : q ∈ conns := by
  unfold setConnSession at hq
  rw [List.mem_map] at hq
  obtain ⟨p, hp, hfp⟩ := hq
  by_cases h : p.1 = cid
  · rw [if_pos h] at hfp
    exact absurd (by rw [← hfp]; exact h) hne
  · rw [if_neg h] at hfp
    rw [← hfp]; exact hp

theorem startTelemetrySimulation_isSome (sid : String) (interval : ℚ)
    (fresh : SimulationState) (now : ℚ)
    (sessions : List (String × ActiveSession)) :
    (getEntry (startTelemetrySimulation sid interval fresh now sessions) sid).isSome := by
  unfold startTelemetrySimulation
  by_cases h : (getEntry sessions sid).isSome
  · rw [if_pos h]; exact h
  · rw [if_neg h]
    simp [getEntry]

/-! ### C8: protocol errors are answered and change nothing -/

/-- C8: a malformed (non-JSON) inbound frame is answered with the
generic invalid-format error and leaves every registry and the storage
untouched; a decoded message with an unknown type is answered with a
structured error enumerating the six supported types, the session
registry and storage are untouched, and the connection stays registered
with its subscription intact (only its activity timestamp refreshes). -/
theorem protocol_error_spec (cid : String) (conn : Connection) (msg : RawMessage)
    (now : ℚ) (fresh : SimulationState) (st : ServerState) (db : Database)
    (hlook : getEntry st.activeConnections cid = some conn)
    (hopen : conn.readyStateOpen = true) :
    onSocketMessage cid Inbound.malformed now fresh st db =
      (st, db, [(cid, ServerMsg.errorMsg "Invalid message format" none)]) ∧
    (msg.type ∉ supportedTypes →
      onSocketMessage cid (Inbound.parsed msg) now fresh st db =
        ({ st with activeConnections := touchConnection cid now st.activeConnections },
          db,
          [(cid, ServerMsg.errorMsg ("Unknown message type: " ++ msg.type)
            (some supportedTypes))]) ∧
      getEntry (touchConnection cid now st.activeConnections) cid =
        some { conn with lastActivity := now }) := by
  constructor
  · unfold onSocketMessage
    simp only [hlook]
    unfold sendMessage
    rw [if_pos hopen]
  · intro hunk
    have htouch : getEntry (touchConnection cid now st.activeConnections) cid =
        some { conn with lastActivity := now } := by
      rw [getEntry_touchConnection_self, hlook]; rfl
    refine ⟨?_, htouch⟩
    simp only [supportedTypes, List.mem_cons, List.not_mem_nil, or_false,
      not_or] at hunk
    obtain ⟨h1, h2, h3, h4, h5, h6⟩ := hunk
    unfold onSocketMessage handleClientMessage
    simp only [htouch]
    rw [if_neg h1, if_neg h2, if_neg h3, if_neg h4, if_neg h5, if_neg h6]
    simp [sendMessage, hopen]

/-- C8 witness: a malformed frame on an open registered connection. -/
theorem protocol_error_spec_witness :
    onSocketMessage "c1" Inbound.malformed 0 (initSimulationState 0 0 0 0 0 0)
        ⟨[("c1", ⟨none, 0, true⟩)], []⟩ [] =
      (⟨[("c1", ⟨none, 0, true⟩)], []⟩, [],
        [("c1", ServerMsg.errorMsg "Invalid message format" none)]) :=
  (protocol_error_spec "c1" ⟨none, 0, true⟩ ⟨"nope", ⟨none, none, none, none⟩⟩ 0
      (initSimulationState 0 0 0 0 0 0) ⟨[("c1", ⟨none, 0, true⟩)], []⟩ []
      (by simp [getEntry]) rfl).1

/-! ### C9: start_session auto-subscribes the requesting connection -/

/-- C9: a successful `start_session` sets the requesting connection's
subscription to the started session's id, so that (i) the connection is
registered with that subscription, (ii) the session's simulation is
running, (iii) without ever sending `subscribe_telemetry` the connection
is among the recipients of that session's `telemetry_data` broadcasts
(when its socket is open), and (iv) it counts as a subscriber for the
auto-stop-on-last-subscriber-disconnect policy. -/
theorem handleStartSession_subscribes (cid : String) (conn : Connection)
    (data : MsgData) (now : ℚ) (fresh : SimulationState) (st : ServerState)
    (db : Database)
    (hlook : getEntry st.activeConnections cid = some conn)
    (hnodup : (st.activeConnections.map Prod.fst).Nodup) :
    getEntry (handleStartSession cid data now fresh st db).1.activeConnections cid =
      some { conn with sessionId := some (startedSessionId data db now) } ∧
    (getEntry (handleStartSession cid data now fresh st db).1.activeSessions
      (startedSessionId data db now)).isSome ∧
    (conn.readyStateOpen = true → ∀ sp od al,
      (cid, ServerMsg.telemetryData (startedSessionId data db now) sp od al) ∈
        broadcastTelemetryData (startedSessionId data db now) sp od al
          (handleStartSession cid data now fresh st db).1.activeConnections) ∧
    (startedSessionId data db now ≠ "" →
      (∀ p ∈ st.activeConnections, p.1 ≠ cid →
        p.2.sessionId ≠ some (startedSessionId data db now)) →
      getEntry (handleClientDisconnect cid
        (handleStartSession cid data now fresh st db).1).activeSessions
        (startedSessionId data db now) = none) := by
  have hconns : (handleStartSession cid data now fresh st db).1.activeConnections =
      setConnSession cid (some (startedSessionId data db now)) st.activeConnections := by
    unfold handleStartSession
    simp only [hlook]
  have hsessions : (handleStartSession cid data now fresh st db).1.activeSessions =
      startTelemetrySimulation (startedSessionId data db now)
        (data.simulationSpeed.getD 1000) fresh now st.activeSessions := by
    unfold handleStartSession
    simp only [hlook]
  have hlook2 : getEntry
      (handleStartSession cid data now fresh st db).1.activeConnections cid =
      some { conn with sessionId := some (startedSessionId data db now) } := by
    rw [hconns, getEntry_setConnSession_self, hlook]; rfl
  refine ⟨hlook2, ?_, ?_, ?_⟩
  · rw [hsessions]
    exact startTelemetrySimulation_isSome ..
  · intro hopen sp od al
    have hm : (cid, { conn with sessionId := some (startedSessionId data db now) }) ∈
        (handleStartSession cid data now fresh st db).1.activeConnections :=
      getEntry_eq_some_mem hlook2
    rcases al with _ | a
    · rw [broadcastTelemetryData_none]
      exact List.mem_append_left _ ((mem_telemetrySends_iff ..).mpr
        ⟨_, hm, rfl, hopen⟩)
    · rw [broadcastTelemetryData_some]
      exact List.mem_append_left _ ((mem_telemetrySends_iff ..).mpr
        ⟨_, hm, rfl, hopen⟩)
  · intro hSne honly
    refine disconnect_stops_last cid (startedSessionId data db now)
      { conn with sessionId := some (startedSessionId data db now) }
      (handleStartSession cid data now fresh st db).1 hlook2 ?_ rfl hSne ?_
    · rw [hconns, setConnSession_keys]; exact hnodup
    · intro p hp hpne
      exact honly p (mem_setConnSession_ne (hconns ▸ hp) hpne) hpne

/-- C9 witness: starting session `abc` subscribes the starting
connection to it. -/
theorem handleStartSession_subscribes_witness :
    getEntry (handleStartSession "c1" ⟨some "abc", none, none, none⟩ 5
        (initSimulationState 5 0 0 0 0 0)
        ⟨[("c1", ⟨none, 0, true⟩)], []⟩ []).1.activeConnections "c1" =
      some ⟨some (startedSessionId ⟨some "abc", none, none, none⟩ [] 5), 0, true⟩ :=
  (handleStartSession_subscribes "c1" ⟨none, 0, true⟩ ⟨some "abc", none, none, none⟩ 5
      (initSimulationState 5 0 0 0 0 0) ⟨[("c1", ⟨none, 0, true⟩)], []⟩ []
      (by simp [getEntry]) (by simp)).1

/-! ### C10: subscribe_telemetry without existence checks -/

/-- C10: `subscribe_telemetry` with a non-empty session id sets the
connection's subscription and confirms, with no check that the session
exists or that a simulation runs (the handler's output does not depend
on the session registry, which passes through untouched); a falsy
(missing or empty) session id yields `subscription_error` and leaves
everything — in particular the prior subscription — unchanged. -/
theorem handleSubscribeTelemetry_spec (cid : String) (conn : Connection)
    (data : MsgData) (st : ServerState)
    (hlook : getEntry st.activeConnections cid = some conn) :
    (∀ s, data.sessionId = some s → s ≠ "" →
      handleSubscribeTelemetry cid data st =
        ({ st with activeConnections :=
            setConnSession cid (some s) st.activeConnections },
          sendMessage cid conn (ServerMsg.subscriptionConfirmed s))) ∧
    (jsTruthy data.sessionId = false →
      handleSubscribeTelemetry cid data st =
        (st, sendMessage cid conn
          (ServerMsg.subscriptionError "sessionId required for telemetry subscription"))) ∧
    (∀ sessions2 : List (String × ActiveSession),
      (handleSubscribeTelemetry cid data { st with activeSessions := sessions2 }).2 =
        (handleSubscribeTelemetry cid data st).2 ∧
      (handleSubscribeTelemetry cid data
          { st with activeSessions := sessions2 }).1.activeConnections =
        (handleSubscribeTelemetry cid data st).1.activeConnections) := by
  refine ⟨?_, ?_, ?_⟩
  · intro s hs hsne
    unfold handleSubscribeTelemetry
    simp only [hlook, hs]
    rw [if_neg (by simp [jsTruthy, hsne])]
    rfl
  · intro hf
    unfold handleSubscribeTelemetry
    simp only [hlook]
    rw [if_pos hf]
  · intro sessions2
    unfold handleSubscribeTelemetry
    have hsame : ({ st with activeSessions := sessions2 } :
        ServerState).activeConnections = st.activeConnections := rfl
    simp only [hsame, hlook]
    by_cases h : jsTruthy data.sessionId = false
    · rw [if_pos h, if_pos h]
      exact ⟨rfl, rfl⟩
    · rw [if_neg h, if_neg h]
      exact ⟨rfl, rfl⟩

/-- C10 witness: subscribing to the nonexistent session `abc` succeeds
with no session registry consulted (here it is empty). -/
theorem handleSubscribeTelemetry_spec_witness :
    handleSubscribeTelemetry "c1" ⟨some "abc", none, none, none⟩
        ⟨[("c1", ⟨none, 0, true⟩)], []⟩ =
      (⟨setConnSession "c1" (some "abc") [("c1", ⟨none, 0, true⟩)], []⟩,
        [("c1", ServerMsg.subscriptionConfirmed "abc")]) :=
  (handleSubscribeTelemetry_spec "c1" ⟨none, 0, true⟩ ⟨some "abc", none, none, none⟩
      ⟨[("c1", ⟨none, 0, true⟩)], []⟩ (by simp [getEntry])).1 "abc" rfl (by simp)

end IndraNav
